import Mathlib

/-!
Verification of the cart and order lifecycle of the food-delivery storefront.

The sources of the repository under `src/app/frontend/src/pages` contain the React
frontend: `CartPage.jsx` (cart display, quantity updates, order placement
trigger, totals at lines 103-105), `OrdersPage.jsx` (order display with
`getStatusIcon`/`getStatusColor`, plus the restaurant page with the quantity
selector and `handleAddToCart`), and `HomePage.jsx` (restaurant search and
cuisine filter).  The backend endpoints the frontend calls
(`POST /cart/add`, `PUT /cart/update`, `DELETE /cart/remove/:id`,
`POST /orders`) are not part of the available sources; where a definition
embeds one of those endpoints it is modelled from the specification and its
doc comment says so.

Monetary values are embedded as exact rationals (`ℚ`); quantities and
quantity deltas as integers (`ℤ`).  Where the claim is about the
floating-point representation itself, `IsBinary64` characterises the finite
IEEE-754 binary64 values (the representation of every JavaScript number)
inside `ℚ`.
-/

/-- A line in the cart, as stored server-side and rendered by `CartPage.jsx`:
`{menu_item_id, name, price, quantity, image}`. -/
structure CartItem where
  menu_item_id : String
  name : String
  price : ℚ
  quantity : ℤ
  image : String
deriving DecidableEq, Repr

/-- The per-user cart: its items and the restaurant it is bound to
(`restaurant_id` is null until the first item is added). -/
structure Cart where
  items : List CartItem
  restaurant_id : Option String
deriving DecidableEq, Repr

/-- The well-formedness invariant of the data model (spec §3): an empty cart
is not bound to any restaurant. -/
def Cart.WF (c : Cart) : Prop := c.items = [] → c.restaurant_id = none

/-- An order snapshot, as rendered by `OrdersPage.jsx`: id, restaurant,
line-item snapshots, address, total, status and creation time. -/
structure Order where
  id : String
  restaurant_id : Option String
  restaurant_name : String
  items : List CartItem
  delivery_address : String
  total_amount : ℚ
  status : String
  created_at : ℤ
deriving DecidableEq, Repr

/-- Line 103 of `CartPage.jsx`:
`cart.items.reduce((sum, item) => sum + (item.price * item.quantity), 0)`. -/
def subtotal (c : Cart) : ℚ :=
  c.items.foldl (fun sum item => sum + item.price * (item.quantity : ℚ)) 0

/-- Line 104 of `CartPage.jsx`: `total > 0 ? 3.99 : 0`. -/
def deliveryFee (c : Cart) : ℚ :=
  if 0 < subtotal c then 399/100 else 0

/-- Line 105 of `CartPage.jsx`: `total + deliveryFee`. -/
def grandTotal (c : Cart) : ℚ :=
  subtotal c + deliveryFee c

/-- Decidable equality for `Except`, used to evaluate the operations on
concrete inputs. -/
instance {ε α : Type} [DecidableEq ε] [DecidableEq α] : DecidableEq (Except ε α) := fun a b =>
  match a, b with
  | .error e, .error f =>
      if h : e = f then isTrue (by rw [h]) else isFalse (fun hc => h (Except.error.inj hc))
  | .error _, .ok _ => isFalse (fun hc => Except.noConfusion hc)
  | .ok _, .error _ => isFalse (fun hc => Except.noConfusion hc)
  | .ok x, .ok y =>
      if h : x = y then isTrue (by rw [h]) else isFalse (fun hc => h (Except.ok.inj hc))

/-- JavaScript `String.prototype.trim` modelled on the character list of the
string: leading and trailing whitespace removed.  (The corresponding core
function `String.trim` is defined through byte-position loops that the kernel
cannot evaluate, so the embedding works on `String.data` directly.) -/
def trimData (s : String) : List Char :=
  ((s.data.dropWhile Char.isWhitespace).reverse.dropWhile Char.isWhitespace).reverse

/-- Errors of the Cart Manager operations (spec §7). -/
inductive CartError
  | ItemNotFoundError
  | CrossRestaurantError
  | InvalidQuantityError
deriving DecidableEq, Repr

/-- Modelled from the spec: the backend handler for `DELETE /cart/remove/:id`
is not among the available sources (`removeItem` in `CartPage.jsx` lines 57-65
only issues the request).  Spec §4.1: "deletes the item; if the cart becomes
empty, restaurant id resets to null". -/
def removeItem (c : Cart) (menuItemId : String) : Cart :=
  { items := c.items.filter (fun i => i.menu_item_id ≠ menuItemId)
    restaurant_id :=
      if (c.items.filter (fun i => i.menu_item_id ≠ menuItemId)).isEmpty
      then none else c.restaurant_id }

/-- Modelled from the spec: the backend handler for `PUT /cart/update` is not
among the available sources.  Spec §4.1: "replaces the stored quantity for
that item. Fails with ItemNotFoundError if menu_item_id is absent". -/
def serverUpdateQuantity (c : Cart) (menuItemId : String) (quantity : ℤ) :
    Except CartError Cart :=
  if c.items.any (fun i => i.menu_item_id = menuItemId) then
    .ok { c with items := c.items.map (fun i =>
            if i.menu_item_id = menuItemId then { i with quantity := quantity } else i) }
  else .error .ItemNotFoundError

/-- Composite `updateQuantity` as invoked from `CartPage.jsx` lines 40-55: the
client routes `newQuantity < 1` to `removeItem` and otherwise issues
`PUT /cart/update` (the server side of which is modelled from the spec in
`serverUpdateQuantity`). -/
def updateQuantity (c : Cart) (menuItemId : String) (newQuantity : ℤ) :
    Except CartError Cart :=
  if newQuantity < 1 then .ok (removeItem c menuItemId)
  else serverUpdateQuantity c menuItemId newQuantity

/-- Order placement failures reported by `placeOrder` (spec §7). -/
inductive PlaceOrderError
  | MissingAddressError
  | EmptyCartError
deriving DecidableEq, Repr

/-- Order placement: the precondition checks and their order are the client
code of `placeOrder` in `CartPage.jsx` lines 67-90 (`!deliveryAddress.trim()`
is tested first, then `cart.items.length === 0`).  The success path is
modelled from the spec, the backend handler for `POST /orders` being absent
from the available sources: spec §4.2 snapshots the cart items and the
computed grand total into an immutable Order with status `placed`, a freshly
generated id and timestamp (supplied here by the caller as `freshId` and
`now`), and clears the cart.  The state-passing embedding returns the new
cart together with the outcome: both components of the pair are produced by
the same atomic step, and on failure the input cart is returned unchanged. -/
def placeOrder (c : Cart) (deliveryAddress : String) (freshId : String)
    (now : ℤ) (restaurantName : String) : Cart × Except PlaceOrderError Order :=
  if trimData deliveryAddress = [] then (c, .error .MissingAddressError)
  else if c.items.isEmpty then (c, .error .EmptyCartError)
  else ({ items := [], restaurant_id := none },
        .ok { id := freshId
              restaurant_id := c.restaurant_id
              restaurant_name := restaurantName
              items := c.items
              delivery_address := deliveryAddress
              total_amount := grandTotal c
              status := "placed"
              created_at := now })

/-- Modelled from the spec: the backend handler for `POST /cart/add` is not
among the available sources (`handleAddToCart` in the restaurant page only
posts `{menu_item_id, quantity, restaurant_id}`).  Spec §4.1, checks in the
order the spec states them: CrossRestaurantError if the cart is non-empty and
bound to a different restaurant id; InvalidQuantityError if quantity < 1; if
the item already exists in the cart the quantities combine (not overwrite);
otherwise the item is appended and the cart is bound to the restaurant. -/
def addToCart (c : Cart) (item : CartItem) (restaurantId : String) :
    Except CartError Cart :=
  if ¬ c.items.isEmpty ∧ c.restaurant_id ≠ some restaurantId then
    .error .CrossRestaurantError
  else if item.quantity < 1 then .error .InvalidQuantityError
  else if c.items.any (fun i => i.menu_item_id = item.menu_item_id) then
    .ok { items := c.items.map (fun i =>
            if i.menu_item_id = item.menu_item_id
            then { i with quantity := i.quantity + item.quantity } else i)
          restaurant_id := some restaurantId }
  else .ok { items := c.items ++ [item], restaurant_id := some restaurantId }

/-- First item of a given menu item id in the cart, used to observe the stored
quantity. -/
def findItem (c : Cart) (menuItemId : String) : Option CartItem :=
  c.items.find? (fun i => i.menu_item_id = menuItemId)

/-- Icons used by the order display (the lucide components selected by
`getStatusIcon`). -/
inductive StatusIcon
  | Clock
  | Package
  | CheckCircle
deriving DecidableEq, Repr

/-- Function `getStatusIcon` of `OrdersPage.jsx` lines 36-47: a switch over
the status with a default arm returning the `Package` icon. -/
def getStatusIcon (status : String) : StatusIcon :=
  if status = "placed" then .Clock
  else if status = "preparing" then .Package
  else if status = "delivered" then .CheckCircle
  else .Package

/-- Function `getStatusColor` of `OrdersPage.jsx` lines 49-60: a switch over
the status with a default arm returning the neutral gray classes. -/
def getStatusColor (status : String) : String :=
  if status = "placed" then "bg-blue-100 text-blue-700 border-blue-300"
  else if status = "preparing" then "bg-yellow-100 text-yellow-700 border-yellow-300"
  else if status = "delivered" then "bg-green-100 text-green-700 border-green-300"
  else "bg-gray-100 text-gray-700 border-gray-300"

/-- Pending quantities on the restaurant page: the `quantities` state object,
a partial map from item id to the selected quantity (`useState({})`). -/
def QuantityMap := String → Option ℤ

/-- JavaScript `v || 1` on a possibly-undefined number: undefined and 0 are
falsy and give 1, every other value passes through. -/
def jsOrOne (v : Option ℤ) : ℤ :=
  match v with
  | none => 1
  | some x => if x = 0 then 1 else x

/-- Events touching the `quantities` state of the restaurant page: a click on
the plus or minus button (`updateQuantity(itemId, delta)`, lines 247-251 of
the restaurant page) and the reset to 1 after a successful add to cart
(line 241). -/
inductive QuantityEvent
  | click (itemId : String) (delta : ℤ)
  | addedToCart (itemId : String)
deriving DecidableEq, Repr

/-- One step of the `quantities` state: a click stores
`Math.max(1, (quantities[itemId] || 1) + delta)`; a successful add stores 1. -/
def stepQuantities (q : QuantityMap) : QuantityEvent → QuantityMap
  | .click itemId delta => fun k =>
      if k = itemId then some (max 1 (jsOrOne (q itemId) + delta)) else q k
  | .addedToCart itemId => fun k => if k = itemId then some 1 else q k

/-- The `quantities` state after a sequence of events, starting from the empty
object. -/
def runQuantities (events : List QuantityEvent) : QuantityMap :=
  events.foldl stepQuantities (fun _ => none)

/-- The quantity `handleAddToCart` sends for an item:
`quantities[menuItem.id] || 1` (line 232 of the restaurant page). -/
def sentQuantity (q : QuantityMap) (itemId : String) : ℤ :=
  jsOrOne (q itemId)

/-- The fields of a restaurant card that the home-page filter reads. -/
structure Restaurant where
  id : String
  name : String
  description : String
  cuisine_type : String
deriving DecidableEq, Repr

/-- Decides whether the character list `ns` occurs at the start of `hs`
(the JavaScript `String.prototype.startsWith` on the underlying characters). -/
def charsStartWith : List Char → List Char → Bool
  | [], _ => true
  | _ :: _, [] => false
  | n :: ns, h :: hs => n = h && charsStartWith ns hs

/-- Decides whether `needle` occurs contiguously inside `haystack` (the
JavaScript `String.prototype.includes` on the underlying characters). -/
def charsContain (haystack needle : List Char) : Bool :=
  match haystack with
  | [] => needle.isEmpty
  | _ :: rest => charsStartWith needle haystack || charsContain rest needle

/-- JavaScript `String.prototype.toLowerCase` modelled on the character list
of the string (the core `String.toLower` maps `Char.toLower` over the same
characters but through byte-position loops the kernel cannot evaluate). -/
def toLowerData (s : String) : List Char :=
  s.data.map Char.toLower

/-- JavaScript `a.toLowerCase().includes(b.toLowerCase())` as used by the
home-page search. -/
def lowerIncludes (a b : String) : Bool :=
  charsContain (toLowerData a) (toLowerData b)

/-- Search condition of `filteredRestaurants` (`HomePage.jsx` lines 92-93):
the name or the description contains the query, case-insensitively. -/
def matchesSearch (r : Restaurant) (searchQuery : String) : Bool :=
  lowerIncludes r.name searchQuery || lowerIncludes r.description searchQuery

/-- Cuisine condition of `filteredRestaurants` (`HomePage.jsx` line 94). -/
def matchesCuisine (r : Restaurant) (selectedCuisine : String) : Bool :=
  selectedCuisine = "All" || r.cuisine_type = selectedCuisine

/-- The home-page restaurant filter, `HomePage.jsx` lines 91-96. -/
def filteredRestaurants (restaurants : List Restaurant)
    (searchQuery selectedCuisine : String) : List Restaurant :=
  restaurants.filter
    (fun r => matchesSearch r searchQuery && matchesCuisine r selectedCuisine)

/-- A concrete one-line cart used to instantiate the scenarios: one item
priced 12.00 at quantity 1, cart bound to restaurant `r1`. -/
def pizzaCart : Cart := ⟨[⟨"m1", "Margherita", 12, 1, "img"⟩], some "r1"⟩

/-- Folding the running sum of `price * quantity` from `a` equals `a` plus
the sum of the per-line amounts. -/
lemma foldl_line_amounts (l : List CartItem) (a : ℚ) :
    l.foldl (fun sum item => sum + item.price * (item.quantity : ℚ)) a =
      a + (l.map (fun i => i.price * (i.quantity : ℚ))).sum := by
  induction l generalizing a with
  | nil => simp
  | cons x t ih => simp [ih, add_assoc]

/-- The reduce of `CartPage.jsx` line 103 computes the sum of the per-line
amounts. -/
lemma subtotal_eq_sum (c : Cart) :
    subtotal c = (c.items.map (fun i => i.price * (i.quantity : ℚ))).sum := by
  unfold subtotal
  rw [foldl_line_amounts]
  simp

/-- C1: a successful placeOrder — non-empty cart, address non-blank after
trimming — returns, in one atomic step (a single transition of the
state-passing embedding, so no state with the order created but the cart not
cleared, or vice versa, is ever observable), the cleared cart (items emptied,
restaurant id null) together with an order carrying status `placed`, the
freshly generated id and timestamp supplied by the generator, the snapshot of
the cart items, and a total equal to the pre-clear grand total (subtotal plus
delivery fee).  The order value is a plain record, immutable by
construction. -/
theorem C1_placeOrder_atomic (c : Cart) (addr freshId restName : String) (now : ℤ)
    (hItems : c.items ≠ []) (hAddr : trimData addr ≠ []) :
    placeOrder c addr freshId now restName =
      ({ items := [], restaurant_id := none },
       Except.ok { id := freshId, restaurant_id := c.restaurant_id,
                   restaurant_name := restName, items := c.items,
                   delivery_address := addr, total_amount := grandTotal c,
                   status := "placed", created_at := now }) := by
  unfold placeOrder
  rw [if_neg hAddr, if_neg (by simpa [List.isEmpty_iff] using hItems)]

/-- Witness for C1 at the concrete one-item cart and address `123 Main St`. -/
theorem C1_placeOrder_atomic_witness :
    placeOrder pizzaCart "123 Main St" "order-1" 17 "Pizza Palace" =
      ({ items := [], restaurant_id := none },
       Except.ok { id := "order-1", restaurant_id := some "r1",
                   restaurant_name := "Pizza Palace", items := pizzaCart.items,
                   delivery_address := "123 Main St",
                   total_amount := grandTotal pizzaCart,
                   status := "placed", created_at := 17 }) :=
  C1_placeOrder_atomic pizzaCart "123 Main St" "order-1" "Pizza Palace" 17
    (by decide) (by decide)

/-- C2 counterexample: on an empty cart whose candidate address is blank
(here a single space), placeOrder reports MissingAddressError, not the
EmptyCartError the claim requires for every empty cart — the address check of
`CartPage.jsx` line 68 runs before the empty-cart check of line 73. -/
theorem C2_counterexample :
    placeOrder ⟨[], none⟩ " " "o1" 0 "R" =
      (⟨[], none⟩, Except.error PlaceOrderError.MissingAddressError) ∧
    (placeOrder ⟨[], none⟩ " " "o1" 0 "R").2 ≠
      Except.error PlaceOrderError.EmptyCartError := by
  decide

/-- C2 (amended): placeOrder fails with MissingAddressError whenever the
address is blank after trimming; when the address is non-blank and the cart
is empty it fails with EmptyCartError; in either failure case there is no
side effect — the returned cart is the input cart and no order is produced;
in particular an empty cart with address `123 Main St` fails with
EmptyCartError and the cart is unchanged. -/
theorem C2_placeOrder_failures (c : Cart) (addr freshId restName : String) (now : ℤ) :
    (trimData addr = [] →
      placeOrder c addr freshId now restName =
        (c, Except.error PlaceOrderError.MissingAddressError)) ∧
    (trimData addr ≠ [] → c.items = [] →
      placeOrder c addr freshId now restName =
        (c, Except.error PlaceOrderError.EmptyCartError)) ∧
    placeOrder ⟨[], none⟩ "123 Main St" freshId now restName =
      (⟨[], none⟩, Except.error PlaceOrderError.EmptyCartError) := by
  refine ⟨fun h => ?_, fun h1 h2 => ?_, ?_⟩
  · unfold placeOrder
    rw [if_pos h]
  · unfold placeOrder
    rw [if_neg h1, if_pos (by simpa [List.isEmpty_iff] using h2)]
  · unfold placeOrder
    rw [if_neg (by decide : ¬ trimData "123 Main St" = []), if_pos (by rfl)]

/-- Witness for C2 at a blank address on a non-empty cart and at the
empty-cart scenario with address `123 Main St`. -/
theorem C2_placeOrder_failures_witness :
    placeOrder pizzaCart " " "o1" 0 "R" =
      (pizzaCart, Except.error PlaceOrderError.MissingAddressError) ∧
    placeOrder ⟨[], none⟩ "123 Main St" "o1" 0 "R" =
      (⟨[], none⟩, Except.error PlaceOrderError.EmptyCartError) :=
  ⟨(C2_placeOrder_failures pizzaCart " " "o1" "R" 0).1 (by decide),
   (C2_placeOrder_failures ⟨[], none⟩ "123 Main St" "o1" "R" 0).2.2⟩

/-- C3: the subtotal is the sum of `price * quantity` over the items as
stored (the fold reads only the price field recorded on each item); the
delivery fee is the fixed non-zero surcharge 3.99, charged exactly when the
subtotal is positive and 0 otherwise; the grand total is subtotal plus fee;
the one-item cart priced 12.00 at quantity 1 yields subtotal 12.00, fee 3.99
and grand total 15.99, and an empty cart yields fee 0. -/
theorem C3_computeTotals :
    (∀ c : Cart, subtotal c = (c.items.map (fun i => i.price * (i.quantity : ℚ))).sum) ∧
    (∀ c : Cart, 0 < subtotal c → deliveryFee c = 399/100 ∧ deliveryFee c ≠ 0) ∧
    (∀ c : Cart, subtotal c ≤ 0 → deliveryFee c = 0) ∧
    (∀ c : Cart, grandTotal c = subtotal c + deliveryFee c) ∧
    subtotal pizzaCart = 12 ∧
    deliveryFee pizzaCart = 399/100 ∧
    grandTotal pizzaCart = 1599/100 ∧
    deliveryFee ⟨[], none⟩ = 0 := by
  refine ⟨subtotal_eq_sum, fun c h => ⟨?_, ?_⟩, fun c h => ?_, fun c => rfl, ?_, ?_, ?_, ?_⟩
  · unfold deliveryFee
    rw [if_pos h]
  · unfold deliveryFee
    rw [if_pos h]
    norm_num
  · unfold deliveryFee
    rw [if_neg (not_lt.mpr h)]
  · norm_num [pizzaCart, subtotal]
  · norm_num [pizzaCart, deliveryFee, subtotal]
  · norm_num [pizzaCart, grandTotal, deliveryFee, subtotal]
  · norm_num [deliveryFee, subtotal]

/-- Witness for C3: the positive-subtotal hypothesis discharged on the
concrete one-item cart. -/
theorem C3_computeTotals_witness :
    deliveryFee pizzaCart = 399/100 ∧ deliveryFee pizzaCart ≠ 0 :=
  C3_computeTotals.2.1 pizzaCart (by norm_num [pizzaCart, subtotal])

/-- The finite values of an IEEE-754 binary64 number — the representation of
every JavaScript number: m * 2^e with mantissa |m| < 2^53 and exponent
-1074 ≤ e ≤ 971.  The exponent is shifted by 1074 so the characterisation
stays within natural-number powers: x * 2^1074 = m * 2^exp with
exp = e + 1074 ≤ 2045. -/
def IsBinary64 (x : ℚ) : Prop :=
  ∃ (m : ℤ) (exp : ℕ), |m| < 2 ^ 53 ∧ exp ≤ 2045 ∧ x * 2 ^ 1074 = (m : ℚ) * 2 ^ exp

/-- A cart holding the binary64 doubles nearest 0.1 and 0.2 — the exact
values a JavaScript cart stores for items priced 0.1 and 0.2 — at quantity 1
each. -/
def driftCart : Cart :=
  ⟨[⟨"m1", "Gum", 3602879701896397 / 2 ^ 55, 1, "img"⟩,
    ⟨"m2", "Mint", 3602879701896397 / 2 ^ 54, 1, "img"⟩], some "r1"⟩

/-- The exact sum of the doubles nearest 0.1 and 0.2 is not itself a binary64
value: its numerator is odd and exceeds 2^53, so no mantissa/exponent pair
reaches it. -/
lemma drift_sum_not_binary64 : ¬ IsBinary64 ((10808639105689191 : ℚ) / 2 ^ 55) := by
  rintro ⟨m, exp, hm, -, heq⟩
  field_simp at heq
  have heqZ : (10808639105689191 : ℤ) * 2 ^ 1074 = m * 2 ^ exp * 2 ^ 55 := by
    exact_mod_cast heq
  rw [mul_assoc, ← pow_add] at heqZ
  rcases le_or_lt (exp + 55) 1074 with hb | hb
  · have h1 : (10808639105689191 : ℤ) * 2 ^ (1074 - (exp + 55)) * 2 ^ (exp + 55) =
        m * 2 ^ (exp + 55) := by
      rw [mul_assoc, ← pow_add, Nat.sub_add_cancel hb]
      exact heqZ
    have h2 : (10808639105689191 : ℤ) * 2 ^ (1074 - (exp + 55)) = m :=
      mul_right_cancel₀ (pow_ne_zero _ (by norm_num : (2:ℤ) ≠ 0)) h1
    have h3 : (2 : ℤ) ^ 53 < |m| := by
      rw [← h2, abs_mul, abs_pow, abs_of_nonneg (by norm_num : (0:ℤ) ≤ 10808639105689191)]
      have h4 : (1 : ℤ) ≤ |(2:ℤ)| ^ (1074 - (exp + 55)) := one_le_pow₀ (by norm_num)
      nlinarith [h4]
    linarith [hm, h3]
  · have h1 : (10808639105689191 : ℤ) * 2 ^ 1074 = m * 2 ^ (exp + 55 - 1074) * 2 ^ 1074 := by
      rw [mul_assoc, ← pow_add, Nat.sub_add_cancel hb.le]
      exact heqZ
    have h2 : (10808639105689191 : ℤ) = m * 2 ^ (exp + 55 - 1074) :=
      mul_right_cancel₀ (pow_ne_zero _ (by norm_num : (2:ℤ) ≠ 0)) h1
    have h3 : (2 : ℤ) ∣ 10808639105689191 := by
      rw [h2]
      exact Dvd.dvd.mul_left (dvd_pow_self 2 (by omega : exp + 55 - 1074 ≠ 0)) m
    norm_num at h3

/-- C4 (code bug): the totals of `CartPage.jsx` lines 103-105 are computed on
JavaScript numbers, which are IEEE-754 binary64 values, not a fixed-point or
integer-cents representation.  For the cart holding the doubles nearest 0.1
and 0.2 (both representable: first two conjuncts) at quantity 1 each, the
exact rational sum of price times quantity is 10808639105689191/2^55 (third
conjunct), and no binary64 value — in particular not the double
0.30000000000000004 = 5404319552844596/2^54 that the JavaScript addition
returns — equals that exact sum (fourth conjunct): whatever rounding the
additions apply, the computed subtotal differs from the exact rational sum,
so the decimal-safe requirement the claim states is violated by the code. -/
theorem C4_floating_point_drift :
    IsBinary64 ((3602879701896397 : ℚ) / 2 ^ 55) ∧
    IsBinary64 ((3602879701896397 : ℚ) / 2 ^ 54) ∧
    subtotal driftCart = 10808639105689191 / 2 ^ 55 ∧
    (∀ x : ℚ, IsBinary64 x → x ≠ subtotal driftCart) := by
  refine ⟨⟨3602879701896397, 1019, by decide, by norm_num, by norm_num⟩,
    ⟨3602879701896397, 1020, by decide, by norm_num, by norm_num⟩, ?_, ?_⟩
  · norm_num [subtotal, driftCart]
  · intro x hx hxe
    apply drift_sum_not_binary64
    rw [← show subtotal driftCart = 10808639105689191 / 2 ^ 55 by
      norm_num [subtotal, driftCart], ← hxe]
    exact hx

/-- Witness for C4: the double that the JavaScript addition actually returns,
0.30000000000000004 = 5404319552844596/2^54, differs from the exact rational
sum of the drift cart. -/
theorem C4_floating_point_drift_witness :
    (5404319552844596 : ℚ) / 2 ^ 54 ≠ subtotal driftCart :=
  C4_floating_point_drift.2.2.2 ((5404319552844596 : ℚ) / 2 ^ 54)
    ⟨5404319552844596, 1020, by decide, by norm_num, by norm_num⟩

/-- After removing an id from the cart, no item with that id can be found. -/
lemma findItem_removeItem (c : Cart) (m : String) :
    findItem (removeItem c m) m = none := by
  unfold findItem removeItem
  apply List.find?_eq_none.mpr
  intro j hj
  simp only [List.mem_filter, decide_eq_true_eq] at hj
  simpa using hj.2

/-- C5 counterexample: on a cart not containing `m1`, `updateQuantity` with
new quantity 0 succeeds as a removal no-op instead of failing with
ItemNotFoundError — the client routes every `newQuantity < 1` to the remove
path (`CartPage.jsx` lines 41-44) before the server can report the absence. -/
theorem C5_counterexample :
    updateQuantity ⟨[], none⟩ "m1" 0 = .ok ⟨[], none⟩ ∧
    updateQuantity ⟨[], none⟩ "m1" 0 ≠ .error CartError.ItemNotFoundError := by
  decide

/-- C5 (amended): when newQuantity < 1, updateQuantity is exactly a remove
(even when the item is absent, so no error is reported in that case) and the
item is absent afterwards; when newQuantity ≥ 1 and the item is present, the
stored quantity of every line with that id is replaced (not combined) with
newQuantity and the other lines are untouched; updateQuantity fails with
ItemNotFoundError only when newQuantity ≥ 1 and the id is absent. -/
theorem C5_updateQuantity (c : Cart) (m : String) (n : ℤ) :
    (n < 1 → updateQuantity c m n = .ok (removeItem c m)) ∧
    (n < 1 → ∃ c2, updateQuantity c m n = .ok c2 ∧ findItem c2 m = none) ∧
    (1 ≤ n → (∃ i ∈ c.items, i.menu_item_id = m) →
      ∃ c2, updateQuantity c m n = .ok c2 ∧
        (∀ j ∈ c2.items, j.menu_item_id = m → j.quantity = n) ∧
        (∀ j ∈ c2.items, j.menu_item_id ≠ m → j ∈ c.items)) ∧
    (1 ≤ n → (∀ i ∈ c.items, i.menu_item_id ≠ m) →
      updateQuantity c m n = .error CartError.ItemNotFoundError) := by
  refine ⟨fun h => ?_, fun h => ?_, fun h hin => ?_, fun h habs => ?_⟩
  · unfold updateQuantity
    rw [if_pos h]
  · exact ⟨removeItem c m, by unfold updateQuantity; rw [if_pos h], findItem_removeItem c m⟩
  · refine ⟨{ c with items := c.items.map (fun i =>
        if i.menu_item_id = m then { i with quantity := n } else i) }, ?_, ?_, ?_⟩
    · unfold updateQuantity serverUpdateQuantity
      rw [if_neg (not_lt.mpr h), if_pos ?_]
      obtain ⟨i, hi, him⟩ := hin
      exact List.any_eq_true.mpr ⟨i, hi, by simpa using him⟩
    · intro j hj hjm
      simp only [List.mem_map] at hj
      obtain ⟨i, hi, rfl⟩ := hj
      by_cases him : i.menu_item_id = m
      · simp [him]
      · simp only [if_neg him] at hjm ⊢
        exact absurd hjm him
    · intro j hj hjm
      simp only [List.mem_map] at hj
      obtain ⟨i, hi, rfl⟩ := hj
      by_cases him : i.menu_item_id = m
      · exact absurd (by simp [him]) hjm
      · simpa [him] using hi
  · unfold updateQuantity serverUpdateQuantity
    rw [if_neg (not_lt.mpr h), if_neg ?_]
    intro hany
    obtain ⟨i, hi, him⟩ := List.any_eq_true.mp hany
    exact habs i hi (by simpa using him)

/-- Witness for C5: quantity 0 on the one-item cart degenerates to remove;
quantity 5 on a cart not containing the id fails with ItemNotFoundError. -/
theorem C5_updateQuantity_witness :
    updateQuantity pizzaCart "m1" 0 = .ok (removeItem pizzaCart "m1") ∧
    updateQuantity ⟨[], none⟩ "m2" 5 = .error CartError.ItemNotFoundError :=
  ⟨(C5_updateQuantity pizzaCart "m1" 0).1 (by decide),
   (C5_updateQuantity ⟨[], none⟩ "m2" 5).2.2.2 (by decide) (by simp)⟩

/-- Mapping a per-item rewrite that preserves the tested predicate commutes
with `find?`. -/
lemma find?_map_same_pred (l : List CartItem) (p : CartItem → Bool)
    (f : CartItem → CartItem) (hf : ∀ i, p (f i) = p i) :
    (l.map f).find? p = (l.find? p).map f := by
  induction l with
  | nil => rfl
  | cons a t ih =>
    by_cases ha : p a = true
    · rw [List.map_cons, List.find?_cons_of_pos _ (by rw [hf a]; exact ha),
        List.find?_cons_of_pos _ ha]
      rfl
    · rw [List.map_cons, List.find?_cons_of_neg _ (by rw [hf a]; exact ha),
        List.find?_cons_of_neg _ ha, ih]

/-- C7: `removeItem` applied twice is the same as applied once; on a
well-formed cart, removing an absent item is a no-op (and the operation never
reports an error — its result type is simply a cart); whenever the removal
leaves the cart empty, the restaurant id of the result is null; and the
removed id is absent afterwards. -/
theorem C7_removeItem (c : Cart) (x : String) :
    removeItem (removeItem c x) x = removeItem c x ∧
    (c.WF → (∀ i ∈ c.items, i.menu_item_id ≠ x) → removeItem c x = c) ∧
    ((removeItem c x).items = [] → (removeItem c x).restaurant_id = none) ∧
    findItem (removeItem c x) x = none := by
  obtain ⟨items, rest⟩ := c
  have hfil : (items.filter (fun i => decide (i.menu_item_id ≠ x))).filter
      (fun i => decide (i.menu_item_id ≠ x)) =
      items.filter (fun i => decide (i.menu_item_id ≠ x)) :=
    List.filter_eq_self.mpr (fun a ha => (List.mem_filter.mp ha).2)
  refine ⟨?_, fun hwf habs => ?_, fun h => ?_, findItem_removeItem _ x⟩
  · simp only [removeItem, Cart.mk.injEq]
    refine ⟨hfil, ?_⟩
    rw [hfil]
    by_cases he : (items.filter (fun i => decide (i.menu_item_id ≠ x))).isEmpty = true
    · rw [if_pos he, if_pos he]
    · rw [if_neg he, if_neg he]
  · have hfil0 : items.filter (fun i => decide (i.menu_item_id ≠ x)) = items :=
      List.filter_eq_self.mpr (fun a ha => decide_eq_true (habs a ha))
    simp only [removeItem, Cart.mk.injEq]
    refine ⟨hfil0, ?_⟩
    rw [hfil0]
    by_cases he : items.isEmpty = true
    · rw [if_pos he]
      exact (hwf (List.isEmpty_iff.mp he)).symm
    · rw [if_neg he]
  · simp only [removeItem] at h ⊢
    rw [if_pos (show (items.filter (fun i => decide (i.menu_item_id ≠ x))).isEmpty = true by
      rw [h]
      rfl)]

/-- Witness for C7: removing the absent id `zzz` from the one-item cart is a
no-op, through the well-formedness and absence hypotheses. -/
theorem C7_removeItem_witness : removeItem pizzaCart "zzz" = pizzaCart :=
  (C7_removeItem pizzaCart "zzz").2.1 (fun h => absurd h (by decide)) (by decide)

/-- C6: adding an id already in the cart combines (sums) quantities — the
first stored line for that id ends with its old quantity plus the added one,
and the scenario add `m1` with quantity 2 then `m1` with quantity 1 ends at
quantity 3; adding to a non-empty cart bound to a different restaurant id
fails with CrossRestaurantError; adding with quantity < 1 fails with
InvalidQuantityError (proved here for carts passing the restaurant check,
which the model performs first, in the order the spec states the two
failures). -/
theorem C6_addToCart (c : Cart) (item : CartItem) (rid : String) :
    (c.items ≠ [] → c.restaurant_id ≠ some rid →
      addToCart c item rid = .error CartError.CrossRestaurantError) ∧
    ((c.items = [] ∨ c.restaurant_id = some rid) → item.quantity < 1 →
      addToCart c item rid = .error CartError.InvalidQuantityError) ∧
    ((c.items = [] ∨ c.restaurant_id = some rid) → 1 ≤ item.quantity →
      ∀ i, findItem c item.menu_item_id = some i →
      ∃ c2, addToCart c item rid = .ok c2 ∧
        findItem c2 item.menu_item_id =
          some { i with quantity := i.quantity + item.quantity }) ∧
    Except.map (fun c2 => Option.map CartItem.quantity (findItem c2 "m1"))
      ((addToCart ⟨[], none⟩ ⟨"m1", "Burger", 999/100, 2, "img"⟩ "r1").bind
        (fun c1 => addToCart c1 ⟨"m1", "Burger", 999/100, 1, "img"⟩ "r1")) =
      .ok (some 3) := by
  refine ⟨fun h1 h2 => ?_, fun hok hq => ?_, fun hok hq i hi => ?_, by decide⟩
  · unfold addToCart
    rw [if_pos ⟨by simpa [List.isEmpty_iff] using h1, h2⟩]
  · unfold addToCart
    rw [if_neg ?_, if_pos hq]
    rcases hok with h | h
    · exact fun hc => hc.1 (by simp [List.isEmpty_iff, h])
    · exact fun hc => hc.2 h
  · have hmem : i ∈ c.items := List.mem_of_find?_eq_some hi
    have hpred : i.menu_item_id = item.menu_item_id := by
      simpa using List.find?_some hi
    have key : addToCart c item rid = .ok (Cart.mk (c.items.map (fun j =>
        if j.menu_item_id = item.menu_item_id
        then { j with quantity := j.quantity + item.quantity } else j)) (some rid)) := by
      unfold addToCart
      rw [if_neg ?_, if_neg (not_lt.mpr hq),
        if_pos (List.any_eq_true.mpr ⟨i, hmem, by simpa using hpred⟩)]
      rcases hok with h | h
      · exact fun hc => hc.1 (by simp [List.isEmpty_iff, h])
      · exact fun hc => hc.2 h
    refine ⟨_, key, ?_⟩
    unfold findItem at hi ⊢
    dsimp only
    rw [find?_map_same_pred _ _ _ (fun j => by
      by_cases hj : j.menu_item_id = item.menu_item_id
      · simp [hj]
      · simp [hj]), hi]
    simp [hpred]

/-- Witness for C6: a cross-restaurant add on the cart bound to `r1` and a
zero-quantity add on an empty cart. -/
theorem C6_addToCart_witness :
    addToCart pizzaCart ⟨"m9", "Soda", 3, 1, "img"⟩ "r2" =
      .error CartError.CrossRestaurantError ∧
    addToCart ⟨[], none⟩ ⟨"m9", "Soda", 3, 0, "img"⟩ "r1" =
      .error CartError.InvalidQuantityError :=
  ⟨(C6_addToCart pizzaCart ⟨"m9", "Soda", 3, 1, "img"⟩ "r2").1 (by decide) (by decide),
   (C6_addToCart ⟨[], none⟩ ⟨"m9", "Soda", 3, 0, "img"⟩ "r1").2.1 (Or.inl rfl) (by decide)⟩

/-- C8: for every status string outside the three known values, both
status-rendering functions return their default arm — the `Package` icon and
the neutral gray classes — so unknown statuses render as a generic state
rather than failing (both functions are total by construction). -/
theorem C8_status_display_defaults (s : String)
    (h1 : s ≠ "placed") (h2 : s ≠ "preparing") (h3 : s ≠ "delivered") :
    getStatusIcon s = StatusIcon.Package ∧
    getStatusColor s = "bg-gray-100 text-gray-700 border-gray-300" := by
  unfold getStatusIcon getStatusColor
  rw [if_neg h1, if_neg h2, if_neg h3, if_neg h1, if_neg h2, if_neg h3]
  exact ⟨rfl, rfl⟩

/-- Witness for C8 at the unknown status `cancelled`. -/
theorem C8_status_display_defaults_witness :
    getStatusIcon "cancelled" = StatusIcon.Package ∧
    getStatusColor "cancelled" = "bg-gray-100 text-gray-700 border-gray-300" :=
  C8_status_display_defaults "cancelled" (by decide) (by decide) (by decide)

/-- Every value stored in the quantities map is at least 1. -/
def quantityMapLowerBound (q : QuantityMap) : Prop :=
  ∀ k v, q k = some v → 1 ≤ v

/-- The JavaScript `|| 1` fallback yields at least 1 whenever any stored
value is at least 1. -/
lemma jsOrOne_lower (v : Option ℤ) (h : ∀ x, v = some x → 1 ≤ x) :
    1 ≤ jsOrOne v := by
  cases v with
  | none => simp [jsOrOne]
  | some x =>
    by_cases hx : x = 0
    · simp [jsOrOne, hx]
    · simpa [jsOrOne, hx] using h x rfl

/-- One quantity event preserves the lower bound of the quantities map. -/
lemma stepQuantities_lower (q : QuantityMap) (e : QuantityEvent)
    (h : quantityMapLowerBound q) : quantityMapLowerBound (stepQuantities q e) := by
  cases e with
  | click itemId delta =>
    intro k v hv
    by_cases hk : k = itemId
    · simp only [stepQuantities, if_pos hk] at hv
      rcases Option.some.inj hv with rfl
      exact le_max_left 1 _
    · simp only [stepQuantities, if_neg hk] at hv
      exact h k v hv
  | addedToCart itemId =>
    intro k v hv
    by_cases hk : k = itemId
    · simp only [stepQuantities, if_pos hk] at hv
      rcases Option.some.inj hv with rfl
      exact le_refl 1
    · simp only [stepQuantities, if_neg hk] at hv
      exact h k v hv

/-- The lower bound is preserved along any event sequence. -/
lemma foldl_stepQuantities_lower (events : List QuantityEvent) (q : QuantityMap)
    (h : quantityMapLowerBound q) :
    quantityMapLowerBound (events.foldl stepQuantities q) := by
  induction events generalizing q with
  | nil => exact h
  | cons e t ih => exact ih _ (stepQuantities_lower q e h)

/-- Starting from the empty map, the lower bound always holds. -/
lemma runQuantities_lower (events : List QuantityEvent) :
    quantityMapLowerBound (runQuantities events) :=
  foldl_stepQuantities_lower events _ (fun _ _ hv => Option.noConfusion hv)

/-- C9: after any sequence of plus/minus clicks and add-to-cart resets,
starting from the empty quantities object, every stored pending quantity is
at least 1 (the click handler clamps with `Math.max(1, current + delta)` and
an unset entry defaults to 1), and the quantity `handleAddToCart` sends —
`quantities[id] || 1` — is at least 1. -/
theorem C9_quantity_floor (events : List QuantityEvent) (itemId : String) :
    1 ≤ sentQuantity (runQuantities events) itemId ∧
    ∀ v, runQuantities events itemId = some v → 1 ≤ v := by
  refine ⟨?_, fun v hv => runQuantities_lower events itemId v hv⟩
  exact jsOrOne_lower _ (fun x hx => runQuantities_lower events itemId x hx)

/-- Witness for C9: two minus clicks on `m1` still send quantity at least 1,
and the concretely stored value 1 satisfies the bound. -/
theorem C9_quantity_floor_witness :
    1 ≤ sentQuantity (runQuantities
      [QuantityEvent.click "m1" (-1), QuantityEvent.click "m1" (-1)]) "m1" ∧
    (1 : ℤ) ≤ 1 :=
  ⟨(C9_quantity_floor [QuantityEvent.click "m1" (-1), QuantityEvent.click "m1" (-1)] "m1").1,
   (C9_quantity_floor [QuantityEvent.click "m1" (-1), QuantityEvent.click "m1" (-1)] "m1").2
     1 (by decide)⟩

/-- The empty needle is contained in every character list. -/
lemma charsContain_nil (hs : List Char) : charsContain hs [] = true := by
  cases hs with
  | nil => rfl
  | cons a t => rfl

/-- C10: a restaurant appears in the home-page filtered list exactly when it
is in the loaded list, its name or description contains the query
case-insensitively, and the selected cuisine is `All` or equals its cuisine
type; and the empty query matches every restaurant. -/
theorem C10_filteredRestaurants (rs : List Restaurant) (q sel : String) (r : Restaurant) :
    (r ∈ filteredRestaurants rs q sel ↔
      r ∈ rs ∧ (lowerIncludes r.name q = true ∨ lowerIncludes r.description q = true) ∧
        (sel = "All" ∨ r.cuisine_type = sel)) ∧
    matchesSearch r "" = true := by
  constructor
  · unfold filteredRestaurants
    rw [List.mem_filter]
    simp only [matchesSearch, matchesCuisine, Bool.and_eq_true, Bool.or_eq_true,
      decide_eq_true_eq]
  · have h1 : lowerIncludes r.name "" = true := by
      unfold lowerIncludes
      rw [show toLowerData "" = [] from rfl]
      exact charsContain_nil _
    unfold matchesSearch
    simp [h1]

/-- A concrete restaurant card for the filter witness. -/
def sampleRestaurant : Restaurant := ⟨"r1", "Pizza Palace", "Best pies", "Italian"⟩

/-- Witness for C10: with the empty query and cuisine `All`, the sample
restaurant appears in the filtered list. -/
theorem C10_filteredRestaurants_witness :
    sampleRestaurant ∈ filteredRestaurants [sampleRestaurant] "" "All" :=
  ((C10_filteredRestaurants [sampleRestaurant] "" "All" sampleRestaurant).1).mpr
    ⟨by simp, Or.inl (by decide), Or.inl rfl⟩
